import Mathlib

/-!
Shallow embedding of the `create-users-mdb` user-management service:
the Mongoose `User` schema (models/User.js), the CRUD controller
functions (controllers/userController.js), and the Express route
handlers actually mounted at `/api/users` (routes/users.js).

Nondeterministic inputs of the real system (the bcrypt salt, the fresh
MongoDB ObjectId, the clock) are passed as explicit parameters.  The
MongoDB collection is a list of stored documents together with an
optional injected store failure: when the failure is present every
store call rejects with that message, which is how a lost connection
surfaces to the controllers' `catch` blocks.
-/

namespace CreateUsersMdb

/-! ### JavaScript string primitives -/

/-- Whitespace as recognised by JavaScript `String.prototype.trim`
(restricted to the ASCII whitespace relevant here). -/
def isJsSpace (c : Char) : Bool :=
  c == ' ' || c == '\t' || c == '\n' || c == '\r'

/-- JavaScript `trim` / the Mongoose `trim: true` setter. -/
def jsTrim (s : String) : String :=
  ⟨((s.toList.dropWhile isJsSpace).reverse.dropWhile isJsSpace).reverse⟩

/-- JavaScript `toLowerCase` / the Mongoose `lowercase: true` setter. -/
def jsToLower (s : String) : String :=
  ⟨s.toList.map Char.toLower⟩

/-- The full email setter chain of the schema: trim, then lowercase. -/
def normEmail (s : String) : String :=
  jsToLower (jsTrim s)

/-- JavaScript truthiness of an optional string field of `req.body`:
`undefined` and the empty string are falsy, every other string truthy.
This is the test performed by `if (username)`, `if (email)`,
`if (password)` and the spreads in `updateUser`. -/
def jsTruthy : Option String → Bool
  | none => false
  | some s => !s.isEmpty

/-! ### A small regular-expression engine (Brzozowski derivatives)

Used to embed the schema's email `match` validator
`/^\w+([.-]?\w+)*@\w+([.-]?\w+)*(\.\w{2,3})+$/` faithfully. -/

/-- Regular expressions over characters. -/
inductive Rx where
  | fail : Rx
  | eps : Rx
  | pred : (Char → Bool) → Rx
  | cat : Rx → Rx → Rx
  | alt : Rx → Rx → Rx
  | star : Rx → Rx

/-- Does the regex accept the empty string? -/
def Rx.nullable : Rx → Bool
  | .fail => false
  | .eps => true
  | .pred _ => false
  | .cat a b => a.nullable && b.nullable
  | .alt a b => a.nullable || b.nullable
  | .star _ => true

/-- Smart concatenation (keeps derivative terms small). -/
def Rx.scat : Rx → Rx → Rx
  | .fail, _ => .fail
  | _, .fail => .fail
  | .eps, b => b
  | a, .eps => a
  | a, b => .cat a b

/-- Smart alternation (keeps derivative terms small). -/
def Rx.salt : Rx → Rx → Rx
  | .fail, b => b
  | a, .fail => a
  | a, b => .alt a b

/-- Brzozowski derivative with respect to one character. -/
def Rx.deriv (c : Char) : Rx → Rx
  | .fail => .fail
  | .eps => .fail
  | .pred p => if p c then .eps else .fail
  | .cat a b =>
      if a.nullable then Rx.salt (Rx.scat (a.deriv c) b) (b.deriv c)
      else Rx.scat (a.deriv c) b
  | .alt a b => Rx.salt (a.deriv c) (b.deriv c)
  | .star a => Rx.scat (a.deriv c) (.star a)

/-- Full-string match by repeated derivation. -/
def Rx.rmatch : Rx → List Char → Bool
  | r, [] => r.nullable
  | r, c :: cs => (r.deriv c).rmatch cs

/-- `\w`: ASCII word character. -/
def wordChar : Rx := .pred (fun c => c.isAlphanum || c == '_')

/-- A single literal character. -/
def chrRx (c : Char) : Rx := .pred (fun d => d == c)

/-- One or more repetitions. -/
def plusRx (r : Rx) : Rx := .cat r (.star r)

/-- Zero or one repetition. -/
def optRx (r : Rx) : Rx := .alt r .eps

/-- `([.-]?\w+)`: optional dot or dash followed by word characters. -/
def midPartRx : Rx :=
  .cat (optRx (.pred (fun c => c == '.' || c == '-'))) (plusRx wordChar)

/-- `(\.\w{2,3})`: a dot and a two-or-three letter label. -/
def tldRx : Rx :=
  .cat (chrRx '.') (.cat wordChar (.cat wordChar (optRx wordChar)))

/-- The schema's email pattern
`/^\w+([.-]?\w+)*@\w+([.-]?\w+)*(\.\w{2,3})+$/`. -/
def emailRx : Rx :=
  .cat (plusRx wordChar)
    (.cat (.star midPartRx)
      (.cat (chrRx '@')
        (.cat (plusRx wordChar)
          (.cat (.star midPartRx) (plusRx tldRx)))))

/-- The `match` validator of the `email` path. -/
def emailMatch (s : String) : Bool :=
  emailRx.rmatch s.toList

/-! ### Passwords and bcrypt

The bcrypt digest is modelled as the pair of the salt and the hashed
plaintext — an idealised collision-free salted one-way hash.  `compare`
recomputes the digest of the candidate with the salt embedded in the
stored value and compares, exactly the structure of `bcrypt.compare`. -/

/-- The value held by the schema's `password` path: plaintext before the
pre-save hook has run, a salted digest afterwards. -/
inductive PasswordValue where
  | plain : String → PasswordValue
  | hashed : Nat → String → PasswordValue
deriving DecidableEq, Repr

/-- The digest computation: mixes the salt into the plaintext.  It is
injective in the plaintext for a fixed salt, the idealisation of a
collision-free hash. -/
def mixDigest (salt : Nat) (p : String) : List Char :=
  (Nat.repr salt).toList ++ '$' :: p.toList

/-- `bcrypt.hash(plain, salt)` as invoked by the pre-save hook. -/
def bcryptHash (salt : Nat) (p : String) : PasswordValue :=
  .hashed salt p

/-- `userSchema.methods.comparePassword`: `bcrypt.compare(candidate, stored)`
recomputes with the embedded salt and compares digests.  Against a value
that is not a bcrypt digest it reports a mismatch. -/
def comparePassword (candidate : String) : PasswordValue → Bool
  | .hashed salt stored => mixDigest salt candidate == mixDigest salt stored
  | .plain _ => false

/-- String rendering of the stored `password` path (what `toObject`
would serialise). -/
def renderPassword : PasswordValue → String
  | .plain p => p
  | .hashed salt p => "$2b$10$" ++ Nat.repr salt ++ "$" ++ p

/-! ### Documents and the collection -/

/-- A stored user document.  `id` stands for the MongoDB `_id` (a valid
ObjectId, modelled as a natural number); `createdAt`/`updatedAt` are the
`timestamps: true` fields. -/
structure StoredUser where
  id : Nat
  username : String
  email : String
  password : PasswordValue
  createdAt : Nat
  updatedAt : Nat
deriving DecidableEq, Repr

/-- The `users` collection.  When `failure` is present, every store call
rejects with that message — the model of a lost connection or any other
persistence failure reaching the controllers' `catch` blocks. -/
structure Store where
  users : List StoredUser
  failure : Option String
deriving DecidableEq, Repr

/-- `user.toObject()`: the document as a JSON object (field/value list),
password included. -/
def toObject (u : StoredUser) : List (String × String) :=
  [("_id", Nat.repr u.id), ("username", u.username), ("email", u.email),
   ("password", renderPassword u.password),
   ("createdAt", Nat.repr u.createdAt), ("updatedAt", Nat.repr u.updatedAt)]

/-- `delete userResponse.password` (also the effect of
`.select("-password")` on each returned document). -/
def stripPassword (o : List (String × String)) : List (String × String) :=
  o.filter (fun kv => kv.1 != "password")

/-- Does a JSON object carry a field of the given name? -/
def hasField (o : List (String × String)) (k : String) : Bool :=
  o.any (fun kv => kv.1 == k)

/-! ### Response envelope -/

/-- The `data` member of the envelope: a single user object or an array
of user objects. -/
inductive RespData where
  | one : List (String × String) → RespData
  | many : List (List (String × String)) → RespData
deriving DecidableEq, Repr

/-- An HTTP response: status code plus the JSON envelope
`{ success, message?, data?, error? }`. -/
structure Response where
  status : Nat
  success : Bool
  message : Option String
  data : Option RespData
  error : Option String
deriving DecidableEq, Repr

/-- The uniform `catch` answer of every controller on a store failure:
`res.status(500).json({ success: false, message: "Server error",
error: error.message })`. -/
def serverError (m : String) : Response :=
  ⟨500, false, some "Server error", none, some m⟩

/-- `res.status(404).json({ success: false, message: "User not found" })`. -/
def notFound : Response :=
  ⟨404, false, some "User not found", none, none⟩

/-! ### Store operations

Each operation rejects when the store is failing, otherwise acts on the
document list.  Mongoose (v6+) runs the schema setters on query filter
values, so the filters below normalise the searched username/email the
same way the setters do on assignment. -/

/-- `User.find()`. -/
def dbFindAll (st : Store) : Except String (List StoredUser) :=
  match st.failure with
  | some m => .error m
  | none => .ok st.users

/-- `User.findById(id)`. -/
def dbFindById (st : Store) (uid : Nat) : Except String (Option StoredUser) :=
  match st.failure with
  | some m => .error m
  | none => .ok (st.users.find? (fun u => u.id == uid))

/-- `User.findOne(filter)` for an arbitrary filter predicate. -/
def dbFindOne (st : Store) (p : StoredUser → Bool) :
    Except String (Option StoredUser) :=
  match st.failure with
  | some m => .error m
  | none => .ok (st.users.find? p)

/-- Insertion of a freshly constructed document by `user.save()`. -/
def dbInsert (st : Store) (u : StoredUser) : Except String Store :=
  match st.failure with
  | some m => .error m
  | none => .ok ⟨st.users ++ [u], none⟩

/-- Write-back of a modified existing document by `user.save()`. -/
def dbSaveById (st : Store) (uid : Nat) (u : StoredUser) : Except String Store :=
  match st.failure with
  | some m => .error m
  | none => .ok ⟨st.users.map (fun v => if v.id == uid then u else v), none⟩

/-- `User.findByIdAndDelete(id)`: the removed document (if any) and the
remaining collection. -/
def dbFindByIdAndDelete (st : Store) (uid : Nat) :
    Except String (Option StoredUser × Store) :=
  match st.failure with
  | some m => .error m
  | none =>
      .ok (st.users.find? (fun u => u.id == uid),
        ⟨st.users.filter (fun u => u.id != uid), none⟩)

/-! ### Schema validation at `save()` time

`save()` validates before the user-level pre-save hook runs, so the
`minlength: 6` constraint applies to the plaintext, not the digest. -/

/-- `username` path validators: `required`, `minlength: 3`, `maxlength: 30`
(the value has already been trimmed by the setter). -/
def usernameErrors (u : String) : List String :=
  if u.isEmpty then ["Path username is required"]
  else
    (if u.length < 3 then ["username is shorter than the minimum allowed length"]
     else []) ++
    (if 30 < u.length then ["username is longer than the maximum allowed length"]
     else [])

/-- `email` path validators: `required` and the `match` regex (the value
has already been trimmed and lowercased by the setters). -/
def emailErrors (e : String) : List String :=
  if e.isEmpty then ["Path email is required"]
  else if emailMatch e then [] else ["Please enter a valid email"]

/-- `password` path validators: `required`, `minlength: 6` on a plaintext
value; an already-hashed value passes. -/
def passwordErrors : PasswordValue → List String
  | .plain p =>
      if p.isEmpty then ["Path password is required"]
      else if p.length < 6 then
        ["password is shorter than the minimum allowed length"]
      else []
  | .hashed _ _ => []

/-- Document validation run by `save()`; on failure `save` rejects with a
`ValidationError` whose message lists the failing paths. -/
def validateDoc (u : StoredUser) : Option String :=
  let errs := usernameErrors u.username ++ emailErrors u.email ++
    passwordErrors u.password
  if errs.isEmpty then none
  else some ("User validation failed: " ++ String.intercalate ", " errs)

/-! ### Controller functions (controllers/userController.js) -/

/-- `getAllUsers`: `User.find().select("-password")`, 200 envelope. -/
def getAllUsers (st : Store) : Response :=
  match dbFindAll st with
  | .error m => serverError m
  | .ok users =>
      ⟨200, true, none,
        some (RespData.many (users.map (fun u => stripPassword (toObject u)))),
        none⟩

/-- `getUserById`: `User.findById(id).select("-password")`, 404 when
absent. -/
def getUserById (st : Store) (uid : Nat) : Response :=
  match dbFindById st uid with
  | .error m => serverError m
  | .ok none => notFound
  | .ok (some u) =>
      ⟨200, true, none, some (RespData.one (stripPassword (toObject u))), none⟩

/-- The message of the duplicate rejection in `createUser`. -/
def duplicateMsg : String := "User with this email or username already exists"

/-- The filter of `User.findOne({ $or: [{ email }, { username }] })` in
`createUser`; the schema setters normalise the filter values. -/
def createDupFilter (username email : String) (u : StoredUser) : Bool :=
  u.email == normEmail email || u.username == jsTrim username

/-- `createUser`: duplicate lookup, then `new User(...)` (setters) and
`user.save()` (validation, pre-save hashing hook, insert), answering 201
with the saved object minus its password.  `salt` is the bcrypt salt,
`freshId` the ObjectId MongoDB assigns, `now` the clock reading. -/
def createUser (st : Store) (username email password : String)
    (salt freshId now : Nat) : Response × Store :=
  match dbFindOne st (createDupFilter username email) with
  | .error m => (serverError m, st)
  | .ok (some _) => (⟨400, false, some duplicateMsg, none, none⟩, st)
  | .ok none =>
      let doc : StoredUser :=
        ⟨freshId, jsTrim username, normEmail email, .plain password, now, now⟩
      match validateDoc doc with
      | some m => (⟨400, false, some "Validation error", none, some m⟩, st)
      | none =>
          let hashedDoc : StoredUser := {doc with password := bcryptHash salt password}
          match dbInsert st hashedDoc with
          | .error m => (serverError m, st)
          | .ok st2 =>
              (⟨201, true, some "User created successfully",
                some (RespData.one (stripPassword (toObject hashedDoc))), none⟩,
               st2)

/-- The message of the duplicate rejection in `updateUser`. -/
def updateDupMsg : String := "Username or email already exists"

/-- The filter of the duplicate query in `updateUser`:
`{ _id: { $ne: userId }, $or: [...(username ? [{username}] : []),
...(email ? [{email}] : [])] }`. -/
def updateDupFilter (uid : Nat) (username email : Option String)
    (u : StoredUser) : Bool :=
  u.id != uid &&
  ((jsTruthy username && u.username == jsTrim (username.getD "")) ||
   (jsTruthy email && u.email == normEmail (email.getD "")))

/-- The truthiness-guarded field assignments of `updateUser`:
`if (username) user.username = username; if (email) user.email = email;
if (password) user.password = password` — each assignment runs the
schema setters. -/
def assignFields (user : StoredUser)
    (username email password : Option String) : StoredUser :=
  let u1 := if jsTruthy username then
      {user with username := jsTrim (username.getD "")} else user
  let u2 := if jsTruthy email then
      {u1 with email := normEmail (email.getD "")} else u1
  if jsTruthy password then
      {u2 with password := .plain (password.getD "")} else u2

/-- The pre-save hook on an updated document: hashes the password path
only when it was modified (`this.isModified("password")`), i.e. only
when a truthy password was assigned. -/
def hashIfModified (u : StoredUser) (password : Option String)
    (salt : Nat) : StoredUser :=
  if jsTruthy password then
    {u with password := bcryptHash salt (password.getD "")} else u

/-- `updateUser`: existence check, duplicate check among *other* records
when a username or email was supplied, truthiness-guarded field
assignment, and `user.save()` (validation, conditional re-hash, write-back).
Answers 200 with the saved object minus its password. -/
def updateUser (st : Store) (uid : Nat)
    (username email password : Option String) (salt now : Nat) :
    Response × Store :=
  match dbFindById st uid with
  | .error m => (serverError m, st)
  | .ok none => (notFound, st)
  | .ok (some user) =>
      let dup :=
        if jsTruthy username || jsTruthy email then
          dbFindOne st (updateDupFilter uid username email)
        else Except.ok none
      match dup with
      | .error m => (serverError m, st)
      | .ok (some _) => (⟨400, false, some updateDupMsg, none, none⟩, st)
      | .ok none =>
          let u3 := assignFields user username email password
          match validateDoc u3 with
          | some m => (⟨400, false, some "Validation error", none, some m⟩, st)
          | none =>
              let u5 := {hashIfModified u3 password salt with updatedAt := now}
              match dbSaveById st uid u5 with
              | .error m => (serverError m, st)
              | .ok st2 =>
                  (⟨200, true, some "User updated successfully",
                    some (RespData.one (stripPassword (toObject u5))), none⟩,
                   st2)

/-- `deleteUser`: `User.findByIdAndDelete(id)`, 404 when absent. -/
def deleteUser (st : Store) (uid : Nat) : Response × Store :=
  match dbFindByIdAndDelete st uid with
  | .error m => (serverError m, st)
  | .ok (none, _) => (notFound, st)
  | .ok (some _, st2) =>
      (⟨200, true, some "User deleted successfully", none, none⟩, st2)

/-! ### The mounted route handlers (routes/users.js)

These are the handlers Express actually serves at `/api/users` — the
controller functions above are never imported by the router.  Each stub
answers with `res.json(...)` (status 200).  A `data: null` member is
modelled as an absent `data`. -/

/-- `router.get("/")`. -/
def routerGetAll : Response :=
  ⟨200, true, some "Users route working", some (RespData.many []), none⟩

/-- `router.post("/")`: echoes `req.body` as `data`. -/
def routerPost (body : List (String × String)) : Response :=
  ⟨200, true, some "User creation endpoint", some (RespData.one body), none⟩

/-- `router.get("/:id")`. -/
def routerGetById (pid : String) : Response :=
  ⟨200, true, some ("Get user with ID: " ++ pid), none, none⟩

/-- `router.put("/:id")`: echoes `req.body` as `data`. -/
def routerPut (pid : String) (body : List (String × String)) : Response :=
  ⟨200, true, some ("Update user with ID: " ++ pid), some (RespData.one body), none⟩

/-- `router.delete("/:id")`. -/
def routerDelete (pid : String) : Response :=
  ⟨200, true, some ("Delete user with ID: " ++ pid), none, none⟩

/-- A document used by several concrete instantiations below. -/
def bobUser : StoredUser :=
  ⟨1, "bob", "bob@x.com", .hashed 3 "secret1", 10, 10⟩

/-- A second stored document. -/
def aliceUser : StoredUser :=
  ⟨2, "alice", "alice@x.com", .hashed 4 "secret2", 12, 12⟩

/-! ## Theorems about the claims -/

/-- C1: the POST handler mounted at `/api/users` answers with
`data: req.body`, so the value returned to the client for the request
body `{username: "bob", email: "bob@x.com", password: "secret1"}`
carries a `password` field holding the plaintext password — the claim
that the password field is absent from every response fails at the
service boundary as wired. -/
theorem routerPost_echoes_plaintext_password :
    (routerPost
        [("username", "bob"), ("email", "bob@x.com"), ("password", "secret1")]).data =
      some (RespData.one
        [("username", "bob"), ("email", "bob@x.com"), ("password", "secret1")]) ∧
    hasField
      [("username", "bob"), ("email", "bob@x.com"), ("password", "secret1")]
      "password" = true := by
  exact ⟨rfl, rfl⟩

/-- C2: the POST handler mounted at `/api/users` answers status 200 with
`success: true` and `data: req.body` for every request body — it never
answers 201 with the created user, and never 400 on a duplicate or a
validation failure. -/
theorem routerPost_always_ok200 (body : List (String × String)) :
    routerPost body =
      ⟨200, true, some "User creation endpoint", some (RespData.one body), none⟩ ∧
    (routerPost body).status ≠ 201 := by
  exact ⟨rfl, by simp [routerPost]⟩

/-- C3: the DELETE handler mounted at `/api/users/:id` consults no store
and answers `success: true` with status 200 for every id — in particular
for an id with no user record it reports success instead of a 404
`NotFound`. -/
theorem routerDelete_reports_success_for_any_id (pid : String) :
    (routerDelete pid).success = true ∧ (routerDelete pid).status = 200 ∧
    (routerDelete pid).status ≠ 404 := by
  exact ⟨rfl, rfl, by simp [routerDelete]⟩

/-- C5: creating `("bob", "BOB@x.com", "secret1")` on an empty store
stores the email lowercased as `"bob@x.com"`, and a second create
`("alice", "bob@x.com", "secret2")` is rejected as a duplicate with
status 400 because the normalized emails collide. -/
theorem create_email_collision_after_lowercasing :
    (createUser ⟨[], none⟩ "bob" "BOB@x.com" "secret1" 3 1 10).1.status = 201 ∧
    (createUser ⟨[], none⟩ "bob" "BOB@x.com" "secret1" 3 1 10).2.users.map
      StoredUser.email = ["bob@x.com"] ∧
    (createUser (createUser ⟨[], none⟩ "bob" "BOB@x.com" "secret1" 3 1 10).2
        "alice" "bob@x.com" "secret2" 4 2 11).1 =
      ⟨400, false, some duplicateMsg, none, none⟩ := by
  refine ⟨by decide, by decide, by decide⟩

/-- C8 counterexample: on a store failure whose underlying error message
is `"connection lost"`, the 500 response of `getAllUsers` carries that
internal message verbatim in its `error` field — refuting the claim that
the response never includes internal error details. -/
theorem getAllUsers_error_field_leaks_detail :
    (getAllUsers ⟨[], some "connection lost"⟩).status = 500 ∧
    (getAllUsers ⟨[], some "connection lost"⟩).error = some "connection lost" := by
  exact ⟨rfl, rfl⟩

/-- C8 (amended): on every store failure each handler answers 500 with
the generic message `"Server error"`, but the envelope's `error` field
carries the underlying error's message verbatim; nothing is logged in
the handlers. -/
theorem storeFailure_generic_message_with_detail
    (st : Store) (m : String) (uid : Nat) (u e p : String)
    (ou oe op : Option String) (salt fid now : Nat)
    (h : st.failure = some m) :
    getAllUsers st = serverError m ∧
    getUserById st uid = serverError m ∧
    deleteUser st uid = (serverError m, st) ∧
    createUser st u e p salt fid now = (serverError m, st) ∧
    updateUser st uid ou oe op salt now = (serverError m, st) := by
  refine ⟨?_, ?_, ?_, ?_, ?_⟩ <;>
    simp [getAllUsers, getUserById, deleteUser, createUser, updateUser,
      dbFindAll, dbFindById, dbFindOne, dbFindByIdAndDelete, h]

/-- C8 witness: the amended statement at a concrete failing store. -/
theorem storeFailure_generic_message_with_detail_witness :
    getAllUsers ⟨[bobUser], some "connection lost"⟩ = serverError "connection lost" ∧
    getUserById ⟨[bobUser], some "connection lost"⟩ 1 = serverError "connection lost" ∧
    deleteUser ⟨[bobUser], some "connection lost"⟩ 1 =
      (serverError "connection lost", ⟨[bobUser], some "connection lost"⟩) ∧
    createUser ⟨[bobUser], some "connection lost"⟩ "carol" "c@x.com" "secret3" 5 3 20 =
      (serverError "connection lost", ⟨[bobUser], some "connection lost"⟩) ∧
    updateUser ⟨[bobUser], some "connection lost"⟩ 1 (some "carol") none none 5 20 =
      (serverError "connection lost", ⟨[bobUser], some "connection lost"⟩) :=
  storeFailure_generic_message_with_detail
    ⟨[bobUser], some "connection lost"⟩ "connection lost" 1 "carol" "c@x.com"
    "secret3" (some "carol") none none 5 3 20 rfl

/-- C9: verifying a plaintext against the digest produced from it with
any salt succeeds, and verifying it against a digest produced from a
different plaintext fails (the model's digest is collision-free, so the
claim's "with overwhelming probability" holds with certainty). -/
theorem comparePassword_roundtrip (p other : String) (salt salt2 : Nat)
    (hne : p ≠ other) :
    comparePassword p (bcryptHash salt p) = true ∧
    comparePassword p (bcryptHash salt2 other) = false := by
  constructor
  · simp [comparePassword, bcryptHash]
  · simp only [comparePassword, bcryptHash]
    rw [beq_eq_false_iff_ne]
    intro hcontra
    apply hne
    have h2 := List.append_cancel_left hcontra
    rw [List.cons.injEq] at h2
    have h3 := h2.2
    cases p; cases other
    simp only [String.toList] at h3
    exact congrArg String.mk h3

/-- C9 witness: the roundtrip at concrete plaintexts and salts. -/
theorem comparePassword_roundtrip_witness :
    comparePassword "secret1" (bcryptHash 3 "secret1") = true ∧
    comparePassword "secret1" (bcryptHash 4 "secret2") = false :=
  comparePassword_roundtrip "secret1" "secret2" 3 4 (by decide)

/-- C4: `createUser` first runs the duplicate query (failing with the
`DuplicateUser` answer when a matching record exists, regardless of
whether the fields would validate), and only on a duplicate-free store
validates the constraints, hashes the password, inserts, and answers
with the stored record minus its password field. -/
theorem createUser_duplicate_check_precedes_validation
    (st : Store) (u e p : String) (salt fid now : Nat)
    (hf : st.failure = none) :
    (∀ w, st.users.find? (createDupFilter u e) = some w →
      createUser st u e p salt fid now =
        (⟨400, false, some duplicateMsg, none, none⟩, st)) ∧
    (∀ m, st.users.find? (createDupFilter u e) = none →
      validateDoc ⟨fid, jsTrim u, normEmail e, .plain p, now, now⟩ = some m →
      createUser st u e p salt fid now =
        (⟨400, false, some "Validation error", none, some m⟩, st)) ∧
    (st.users.find? (createDupFilter u e) = none →
      validateDoc ⟨fid, jsTrim u, normEmail e, .plain p, now, now⟩ = none →
      createUser st u e p salt fid now =
        (⟨201, true, some "User created successfully",
          some (RespData.one (stripPassword (toObject
            ⟨fid, jsTrim u, normEmail e, .hashed salt p, now, now⟩))), none⟩,
         ⟨st.users ++ [⟨fid, jsTrim u, normEmail e, .hashed salt p, now, now⟩],
           none⟩)) := by
  refine ⟨?_, ?_, ?_⟩
  · intro w hdup
    simp [createUser, dbFindOne, hf, hdup]
  · intro m hdup hval
    simp [createUser, dbFindOne, hf, hdup, hval]
  · intro hdup hval
    simp [createUser, dbFindOne, dbInsert, hf, hdup, hval, bcryptHash]

/-- C4 witness: on a store holding `bob`, creating a second `bob` is
rejected as a duplicate even though the supplied password `"abc"` is
invalid (the duplicate check came first); a duplicate-free valid create
inserts the hashed document and answers 201 with it stripped. -/
theorem createUser_duplicate_check_precedes_validation_witness :
    createUser ⟨[bobUser], none⟩ "bob" "other@x.com" "abc" 4 2 11 =
      (⟨400, false, some duplicateMsg, none, none⟩, ⟨[bobUser], none⟩) ∧
    createUser ⟨[bobUser], none⟩ "carol" "c@x.com" "secret3" 4 2 11 =
      (⟨201, true, some "User created successfully",
        some (RespData.one (stripPassword (toObject
          ⟨2, "carol", "c@x.com", .hashed 4 "secret3", 11, 11⟩))), none⟩,
       ⟨[bobUser, ⟨2, "carol", "c@x.com", .hashed 4 "secret3", 11, 11⟩], none⟩) :=
  ⟨(createUser_duplicate_check_precedes_validation
      ⟨[bobUser], none⟩ "bob" "other@x.com" "abc" 4 2 11 rfl).1 bobUser (by decide),
   (createUser_duplicate_check_precedes_validation
      ⟨[bobUser], none⟩ "carol" "c@x.com" "secret3" 4 2 11 rfl).2.2
     (by decide) (by decide)⟩

/-- The guarded assignments never touch the id. -/
theorem assignFields_id (user : StoredUser) (u e p : Option String) :
    (assignFields user u e p).id = user.id := by
  unfold assignFields
  split <;> split <;> split <;> rfl

/-- Without a truthy password the guarded assignments never touch the
password path. -/
theorem assignFields_password_of_untruthy (user : StoredUser)
    (u e p : Option String) (hp : jsTruthy p = false) :
    (assignFields user u e p).password = user.password := by
  unfold assignFields
  rw [hp]
  simp only [Bool.false_eq_true, if_false]
  split <;> split <;> rfl

/-- The pre-save hook leaves an unmodified password path alone. -/
theorem hashIfModified_of_untruthy (u : StoredUser) (p : Option String)
    (salt : Nat) (hp : jsTruthy p = false) :
    hashIfModified u p salt = u := by
  unfold hashIfModified
  rw [hp]
  simp

/-- An update whose password field is not truthy preserves the stored
password of every record, whatever branch the controller takes. -/
theorem updateUser_untruthy_password_frame (st : Store) (uid : Nat)
    (u e p : Option String) (salt now : Nat) (hp : jsTruthy p = false) :
    ∀ v ∈ (updateUser st uid u e p salt now).2.users,
      ∃ w, w ∈ st.users ∧ w.id = v.id ∧ v.password = w.password := by
  intro v hv
  simp only [updateUser, dbFindById, dbFindOne, dbSaveById] at hv
  split at hv
  · exact ⟨v, hv, rfl, rfl⟩
  · exact ⟨v, hv, rfl, rfl⟩
  · rename_i user hfind
    cases hfail : st.failure with
    | some m =>
        rw [hfail] at hfind
        exact absurd hfind (by simp)
    | none =>
        rw [hfail] at hfind
        simp only [Except.ok.injEq] at hfind
        rw [hfail] at hv
        split at hv
        · exact ⟨v, hv, rfl, rfl⟩
        · exact ⟨v, hv, rfl, rfl⟩
        · split at hv
          · exact ⟨v, hv, rfl, rfl⟩
          · simp only [Store.users] at hv
            obtain ⟨w, hw, hfw⟩ := List.mem_map.mp hv
            by_cases hid : (w.id == uid) = true
            · rw [if_pos hid] at hfw
              refine ⟨user, List.mem_of_find?_eq_some hfind, ?_, ?_⟩
              · rw [← hfw]
                rw [hashIfModified_of_untruthy _ _ _ hp]
                exact (assignFields_id user u e p).symm
              · rw [← hfw]
                rw [hashIfModified_of_untruthy _ _ _ hp]
                exact assignFields_password_of_untruthy user u e p hp
            · rw [if_neg hid] at hfw
              exact ⟨w, hw, by rw [hfw], by rw [hfw]⟩

/-- C6: the duplicate check of `updateUser` considers only records other
than the one being updated.  First part: when no *other* record shares
the user's username or email, resubmitting the user's own username and
email is never answered with the duplicate rejection.  Second part: when
some other record's username matches the (truthy) supplied username, the
update is answered with the duplicate rejection and the store is left
unchanged. -/
theorem updateUser_duplicate_check_excludes_self
    (st : Store) (uid : Nat) (user : StoredUser) (salt now : Nat)
    (hf : st.failure = none)
    (hfind : st.users.find? (fun v => v.id == uid) = some user)
    (hnormU : jsTrim user.username = user.username)
    (hnormE : normEmail user.email = user.email) :
    ((∀ v ∈ st.users, v.id ≠ uid →
        v.username ≠ user.username ∧ v.email ≠ user.email) →
      (updateUser st uid (some user.username) (some user.email) none salt now).1 ≠
        ⟨400, false, some updateDupMsg, none, none⟩) ∧
    (∀ newname : String, ∀ v ∈ st.users, v.id ≠ uid →
      jsTruthy (some newname) = true → v.username = jsTrim newname →
      updateUser st uid (some newname) none none salt now =
        (⟨400, false, some updateDupMsg, none, none⟩, st)) := by
  constructor
  · intro hother
    have hdup : st.users.find?
        (updateDupFilter uid (some user.username) (some user.email)) = none := by
      rw [List.find?_eq_none]
      intro x hx hcontra
      simp only [updateDupFilter, Bool.and_eq_true, Bool.or_eq_true,
        bne_iff_ne, ne_eq, beq_iff_eq, Option.getD_some, hnormU, hnormE]
        at hcontra
      obtain ⟨hxid, hmatch⟩ := hcontra
      obtain ⟨hu, he⟩ := hother x hx hxid
      rcases hmatch with ⟨-, h⟩ | ⟨-, h⟩
      · exact hu h
      · exact he h
    by_cases hguard :
        (jsTruthy (some user.username) || jsTruthy (some user.email)) = true
    · simp only [updateUser, dbFindById, dbFindOne, dbSaveById, hf, hguard,
        if_true, hfind, hdup]
      split
      · simp
      · simp
    · have hg : (jsTruthy (some user.username) || jsTruthy (some user.email))
          = false := by
        simpa using hguard
      simp only [updateUser, dbFindById, dbFindOne, dbSaveById, hf, hg,
        Bool.false_eq_true, if_false, hfind]
      split
      · simp
      · simp
  · intro newname v hv hne htruthy hvu
    have hfil : updateDupFilter uid (some newname) none v = true := by
      simp only [updateDupFilter, Bool.and_eq_true, Bool.or_eq_true,
        bne_iff_ne, ne_eq, beq_iff_eq, Option.getD_some]
      exact ⟨hne, Or.inl ⟨htruthy, hvu⟩⟩
    have hsome : (st.users.find?
        (updateDupFilter uid (some newname) none)).isSome := by
      rw [List.find?_isSome]
      exact ⟨v, hv, hfil⟩
    obtain ⟨w, hw⟩ := Option.isSome_iff_exists.mp hsome
    simp [updateUser, dbFindById, dbFindOne, hf, hfind, htruthy, hw]

/-- C6 witness: on a store holding `bob` (id 1) and `alice` (id 2),
resubmitting bob's own username and email is not rejected as a
duplicate, while renaming bob to `"alice"` is. -/
theorem updateUser_duplicate_check_excludes_self_witness :
    ((updateUser ⟨[bobUser, aliceUser], none⟩ 1
        (some "bob") (some "bob@x.com") none 9 20).1 ≠
      ⟨400, false, some updateDupMsg, none, none⟩) ∧
    updateUser ⟨[bobUser, aliceUser], none⟩ 1 (some "alice") none none 9 20 =
      (⟨400, false, some updateDupMsg, none, none⟩,
       ⟨[bobUser, aliceUser], none⟩) := by
  have h := updateUser_duplicate_check_excludes_self
    ⟨[bobUser, aliceUser], none⟩ 1 bobUser 9 20 rfl (by decide)
    (by decide) (by decide)
  refine ⟨h.1 ?_, h.2 "alice" aliceUser (by decide) (by decide) rfl (by decide)⟩
  intro v hv hne
  rcases List.mem_cons.mp hv with rfl | hv2
  · exact absurd rfl hne
  · rcases List.mem_cons.mp hv2 with rfl | h0
    · exact ⟨by decide, by decide⟩
    · exact absurd h0 (List.not_mem_nil v)

/-- C7: updating an existing user with only a (valid, clash-free) new
username succeeds and rewrites exactly the username and `updatedAt` of
that record: the stored email and the stored credential hash of the
saved document are byte-identical to their previous values (the hashed
password is carried over unchanged, not re-hashed), and every other
record is untouched. -/
theorem updateUser_username_only_preserves_email_and_hash
    (st : Store) (uid : Nat) (user : StoredUser) (salt now : Nat)
    (hf : st.failure = none)
    (hfind : st.users.find? (fun v => v.id == uid) = some user)
    (hnodup : st.users.find? (updateDupFilter uid (some "newname") none) = none)
    (hval : validateDoc {user with username := "newname"} = none) :
    updateUser st uid (some "newname") none none salt now =
      (⟨200, true, some "User updated successfully",
        some (RespData.one (stripPassword (toObject
          {user with username := "newname", updatedAt := now}))), none⟩,
       ⟨st.users.map (fun v => if v.id == uid then
          {user with username := "newname", updatedAt := now} else v),
        none⟩) := by
  have ht : jsTruthy (some "newname") = true := by decide
  have ht2 : jsTruthy (none : Option String) = false := rfl
  have htr : jsTrim "newname" = "newname" := by decide
  simp [updateUser, assignFields, hashIfModified, dbFindById, dbFindOne,
    dbSaveById, hf, hfind, hnodup, ht, ht2, htr, hval]

/-- C7 witness: renaming `bob` to `"newname"` keeps his email and his
stored hash `hashed 3 "secret1"` byte-identical. -/
theorem updateUser_username_only_preserves_email_and_hash_witness :
    updateUser ⟨[bobUser], none⟩ 1 (some "newname") none none 9 20 =
      (⟨200, true, some "User updated successfully",
        some (RespData.one (stripPassword (toObject
          {bobUser with username := "newname", updatedAt := 20}))), none⟩,
       ⟨[{bobUser with username := "newname", updatedAt := 20}], none⟩) :=
  updateUser_username_only_preserves_email_and_hash
    ⟨[bobUser], none⟩ 1 bobUser 9 20 rfl (by decide) (by decide) (by decide)

/-- C10: `updateUser` treats an empty-string field exactly like an
absent one — for each of password, username and email, the call with
`some ""` equals the call with `none` — and an update whose password is
the empty string leaves the stored credential hash of every record
unchanged. -/
theorem updateUser_empty_string_fields_ignored (st : Store) (uid : Nat)
    (u e p : Option String) (salt now : Nat) :
    updateUser st uid u e (some "") salt now =
      updateUser st uid u e none salt now ∧
    updateUser st uid (some "") e p salt now =
      updateUser st uid none e p salt now ∧
    updateUser st uid u (some "") p salt now =
      updateUser st uid u none p salt now ∧
    ∀ v ∈ (updateUser st uid u e (some "") salt now).2.users,
      ∃ w, w ∈ st.users ∧ w.id = v.id ∧ v.password = w.password := by
  have ht : jsTruthy (some "") = false := rfl
  have ht2 : jsTruthy (none : Option String) = false := rfl
  have ha : ∀ user, assignFields user u e (some "") =
      assignFields user u e none := by
    intro user
    simp [assignFields, ht, ht2]
  have hh : ∀ x : StoredUser, ∀ s : Nat,
      hashIfModified x (some "") s = hashIfModified x none s := by
    intro x s
    simp [hashIfModified, ht, ht2]
  have hau : ∀ user, assignFields user (some "") e p =
      assignFields user none e p := by
    intro user
    simp [assignFields, ht, ht2]
  have hae : ∀ user, assignFields user u (some "") p =
      assignFields user u none p := by
    intro user
    simp [assignFields, ht, ht2]
  have hfu : updateDupFilter uid (some "") e = updateDupFilter uid none e := by
    funext w
    simp [updateDupFilter, ht, ht2]
  have hfe : updateDupFilter uid u (some "") = updateDupFilter uid u none := by
    funext w
    simp [updateDupFilter, ht, ht2]
  refine ⟨?_, ?_, ?_, updateUser_untruthy_password_frame st uid u e (some "")
    salt now ht⟩
  · simp only [updateUser, ha, hh]
  · simp only [updateUser, hau, hfu, ht, ht2]
  · simp only [updateUser, hae, hfe, ht, ht2]

end CreateUsersMdb
